import Mathlib

/-!
Shallow embedding of the "Enhanced Devilish Platformer" repository.

The repository holds two near-duplicate variants of one pygame platformer:
`src/gmae.py` (the desktop variant) and `src/New folder/main.py` (the
web-exportable variant).  Definitions below are translated from those files.
Conventions of the embedding:

* pygame `Rect` coordinates are machine integers; they are modelled as `ℤ`.
  Assigning a float to a rect coordinate truncates toward zero (`pyTrunc`).
* Python floats are modelled as `ℚ`.
* `random.uniform`/`random.randint` draws are modelled by an entropy stream
  `Env.rand : ℕ → ℚ` threaded with an explicit counter; each draw consumes one
  index and is clamped into the requested interval.  `math.sin` is modelled by
  an abstract function `Env.sinq`.  No claim below depends on the drawn values.
* Rendering-only data (surfaces, colors taken apart per channel, fonts) is
  kept only where it is part of an object's state (e.g. particle color).
* Python's `open` attribute of `Door` is renamed `is_open` (`open` is a Lean
  keyword); otherwise source names are kept.
-/

/-- Truncation toward zero, the conversion Python's `int()` and pygame rect
coordinate assignment apply to floats. -/
def pyTrunc (q : ℚ) : ℤ := if q < 0 then -⌊-q⌋ else ⌊q⌋

/-- C-style truncating integer division, used by pygame's `Rect.inflate`. -/
def cdiv (a b : ℤ) : ℤ := if a < 0 then -((-a) / b) else a / b

/-- Environment of effects: the entropy stream backing `random.uniform` and
`random.randint`, and the `math.sin` function (floats are abstracted, so `sin`
is an arbitrary function; no claim depends on its values). -/
structure Env where
  rand : ℕ → ℚ
  sinq : ℚ → ℚ

/-- One `random.uniform(a, b)` draw: the k-th entropy value clamped to [a,b]. -/
def Env.uniform (env : Env) (k : ℕ) (a b : ℚ) : ℚ := max a (min b (env.rand k))

/-- One `random.randint(a, b)` draw. -/
def Env.randint (env : Env) (k : ℕ) (a b : ℤ) : ℤ :=
  max a (min b (pyTrunc (env.rand k)))

/-- pygame `Rect`: integer position and size. -/
structure Rect where
  x : ℤ
  y : ℤ
  w : ℤ
  h : ℤ
deriving DecidableEq, Repr

namespace Rect

def left (r : Rect) : ℤ := r.x

def right (r : Rect) : ℤ := r.x + r.w

def top (r : Rect) : ℤ := r.y

def bottom (r : Rect) : ℤ := r.y + r.h

def centerx (r : Rect) : ℤ := r.x + r.w / 2

def centery (r : Rect) : ℤ := r.y + r.h / 2

def center (r : Rect) : ℤ × ℤ := (r.centerx, r.centery)

/-- Assigning `rect.bottom = v` keeps the size and moves `y`. -/
def setBottom (r : Rect) (v : ℤ) : Rect := { r with y := v - r.h }

/-- Assigning `rect.top = v`. -/
def setTop (r : Rect) (v : ℤ) : Rect := { r with y := v }

/-- Assigning `rect.left = v`. -/
def setLeft (r : Rect) (v : ℤ) : Rect := { r with x := v }

/-- Assigning `rect.right = v`. -/
def setRight (r : Rect) (v : ℤ) : Rect := { r with x := v - r.w }

/-- Assigning `rect.topleft = p`. -/
def setTopLeft (r : Rect) (p : ℤ × ℤ) : Rect := { r with x := p.1, y := p.2 }

/-- pygame `Rect.colliderect`: strict overlap on both axes. -/
def collide (a b : Rect) : Bool :=
  decide (a.x < b.x + b.w ∧ a.x + a.w > b.x ∧ a.y < b.y + b.h ∧ a.y + a.h > b.y)

/-- pygame `Rect.inflate(dx, dy)`: grow around the center (C truncating
division for the half offsets). -/
def inflate (r : Rect) (dx dy : ℤ) : Rect :=
  { x := r.x - cdiv dx 2, y := r.y - cdiv dy 2, w := r.w + dx, h := r.h + dy }

end Rect

/-! Module-level configuration constants shared by both variants. -/

def WIDTH : ℤ := 1280

def HEIGHT : ℤ := 720

def GRAVITY : ℚ := 0.8

def JUMP_VELOCITY : ℚ := -15.0

def DOUBLE_JUMP_VELOCITY : ℚ := -13.5

def MOVE_SPEED : ℚ := 6.5

def AIR_CONTROL : ℚ := 0.7

def FRICTION : ℚ := 0.88

def AIR_RESISTANCE : ℚ := 0.96

def TERMINAL_VELOCITY : ℚ := 18.0

/-- `GameState` enum. -/
inductive GameState where
  | PLAYING
  | DEAD
  | WON
  | PAUSED
deriving DecidableEq, Repr

/-- Keyboard state sampled once per frame (the keys the game reads). -/
structure Keys where
  k_a : Bool
  k_d : Bool
  k_left : Bool
  k_right : Bool
  k_w : Bool
  k_space : Bool
  k_up : Bool
  k_r : Bool
  k_escape : Bool
deriving DecidableEq, Repr

/-! Color constants referenced by game-logic state (particle colors). -/

def COLOR_IMPACT : ℕ × ℕ × ℕ := (255, 180, 80)

def COLOR_DUST : ℕ × ℕ × ℕ := (180, 180, 200)

def COLOR_WALL_CRACK : ℕ × ℕ × ℕ := (240, 245, 255)

def COLOR_DOOR : ℕ × ℕ × ℕ := (120, 200, 180)

/-! ## Desktop variant (`src/gmae.py`) -/

/-- One particle of the desktop `ParticleSystem` (a Python dict in the
source). -/
structure DParticle where
  pos : ℚ × ℚ
  vel : ℚ × ℚ
  life : ℚ
  max_life : ℚ
  color : ℕ × ℕ × ℕ
  size : ℚ
deriving DecidableEq, Repr

namespace ParticleSystem

/-- One loop iteration of `ParticleSystem.add_explosion` (desktop): four
`random.uniform` draws building one particle. -/
def mkExplosionParticle (env : Env) (k : ℕ) (pos : ℚ × ℚ) (color : ℕ × ℕ × ℕ)
    (vel_range : ℚ × ℚ) : DParticle :=
  let vx := env.uniform k vel_range.1 vel_range.2
  let vy := env.uniform (k + 1) vel_range.1 (-1)
  let life := env.uniform (k + 2) 0.5 1.2
  let size := env.uniform (k + 3) 2 5
  ⟨pos, (vx, vy), life, life, color, size⟩

/-- Desktop `ParticleSystem.add_explosion`: append `count` random particles
(no cap).  Returns the new pool and the advanced entropy counter. -/
def add_explosion (particles : List DParticle) (pos : ℚ × ℚ) (count : ℕ)
    (color : ℕ × ℕ × ℕ) (vel_range : ℚ × ℚ) (env : Env) (k : ℕ) :
    List DParticle × ℕ :=
  (particles ++
     (List.range count).map (fun i => mkExplosionParticle env (k + 4 * i) pos color vel_range),
   k + 4 * count)

/-- One loop iteration of `ParticleSystem.add_dust` (desktop). -/
def mkDustParticle (env : Env) (k : ℕ) (pos : ℚ × ℚ) : DParticle :=
  let vx := env.uniform k (-1) 1
  let vy := env.uniform (k + 1) (-2) (-0.5)
  let life := env.uniform (k + 2) 0.3 0.8
  let size := env.uniform (k + 3) 1 3
  ⟨pos, (vx, vy), life, life, COLOR_DUST, size⟩

/-- Desktop `ParticleSystem.add_dust`: append `count` random dust particles
(no cap). -/
def add_dust (particles : List DParticle) (pos : ℚ × ℚ) (count : ℕ)
    (env : Env) (k : ℕ) : List DParticle × ℕ :=
  (particles ++ (List.range count).map (fun i => mkDustParticle env (k + 4 * i) pos),
   k + 4 * count)

/-- Per-particle body of desktop `ParticleSystem.update`. -/
def updateParticle (dt : ℚ) (p : DParticle) : DParticle :=
  let vel := (p.vel.1, p.vel.2 + GRAVITY * 0.3)
  { p with vel := vel,
           pos := (p.pos.1 + vel.1, p.pos.2 + vel.2),
           life := p.life - dt }

/-- Desktop `ParticleSystem.update`: integrate every particle, removing those
whose life ran out. -/
def update (particles : List DParticle) (dt : ℚ) : List DParticle :=
  (particles.map (updateParticle dt)).filter (fun p => decide (0 < p.life))

end ParticleSystem

/-- `Camera`: smoothed follow position plus decaying shake state. -/
structure Camera where
  x : ℚ
  y : ℚ
  target_x : ℚ
  target_y : ℚ
  shake_intensity : ℚ
  shake_duration : ℚ
deriving DecidableEq, Repr

namespace Camera

/-- `Camera.__init__`. -/
def make : Camera := ⟨0, 0, 0, 0, 0, 0⟩

/-- `Camera.follow`: move toward the target, then clamp to the level bounds
(the x clamp interval is `[0, WIDTH - WIDTH] = [0, 0]` in the source). -/
def follow (c : Camera) (target : Rect) (smooth : ℚ) : Camera :=
  let tx : ℚ := ((target.centerx - WIDTH / 2 : ℤ) : ℚ)
  let ty : ℚ := ((target.centery - HEIGHT / 2 : ℤ) : ℚ)
  let x := c.x + (tx - c.x) * smooth
  let y := c.y + (ty - c.y) * smooth
  { c with target_x := tx, target_y := ty,
           x := max 0 (min x ((WIDTH - WIDTH : ℤ) : ℚ)),
           y := max (-((HEIGHT / 4 : ℤ) : ℚ)) (min y ((HEIGHT / 4 : ℤ) : ℚ)) }

/-- `Camera.add_shake`. -/
def add_shake (c : Camera) (intensity duration : ℚ) : Camera :=
  { c with shake_intensity := max c.shake_intensity intensity,
           shake_duration := max c.shake_duration duration }

/-- `Camera.update`: tick the shake timer down. -/
def update (c : Camera) (dt : ℚ) : Camera :=
  if 0 < c.shake_duration then
    let d := c.shake_duration - dt
    if d ≤ 0 then { c with shake_duration := d, shake_intensity := 0 }
    else { c with shake_duration := d }
  else c

end Camera

/-- `MagicWall`: a disguised wall that takes two hits. -/
structure MagicWall where
  rect : Rect
  alive : Bool
  cracked : Bool
  crack_timer : ℚ
  crack_progress : ℚ
  health : ℤ
  shake_timer : ℚ
deriving DecidableEq, Repr

namespace MagicWall

/-- `MagicWall.__init__`: alive with health 2. -/
def make (x y w h : ℤ) : MagicWall := ⟨⟨x, y, w, h⟩, true, false, 0, 0, 2, 0⟩

/-- `MagicWall.hit`: one registered player overlap.  Returns the new wall and
the Python return value (`true` iff the wall was destroyed by this hit). -/
def hit (m : MagicWall) : MagicWall × Bool :=
  if ¬m.alive then (m, false)
  else
    let m := { m with health := m.health - 1, shake_timer := 0.3 }
    if m.health ≤ 0 then ({ m with alive := false }, true)
    else ({ m with cracked := true, crack_timer := 0.8 }, false)

/-- `MagicWall.update`: tick the cosmetic shake and crack timers. -/
def update (m : MagicWall) (dt : ℚ) : MagicWall :=
  let m := if 0 < m.shake_timer then { m with shake_timer := m.shake_timer - dt } else m
  if m.cracked ∧ 0 < m.crack_timer then
    let t := m.crack_timer - dt
    { m with crack_timer := t, crack_progress := 1 - t / 0.8 }
  else m

end MagicWall

/-- Movement pattern of a spike (the `move_pattern` dict). -/
inductive MovePattern where
  | none
  | horizontal (speed range_val : ℚ)
  | vertical (speed range_val : ℚ)
deriving DecidableEq, Repr

/-- `Spike`: optionally pops up after a delay, optionally oscillates. -/
structure Spike where
  base_rect : Rect
  rect : Rect
  popup : Bool
  delay : ℚ
  timer : ℚ
  active : Bool
  warn_phase : ℚ
  move_pattern : MovePattern
  move_timer : ℚ
  original_pos : ℤ × ℤ
deriving DecidableEq, Repr

namespace Spike

/-- `Spike.__init__`. -/
def make (x y w h : ℤ) (popup : Bool) (delay : ℚ) (mp : MovePattern) : Spike :=
  ⟨⟨x, y, w, h⟩, ⟨x, y, w, h⟩, popup, delay, delay, !popup, 0, mp, 0, (x, y)⟩

/-- `Spike.update`: popup countdown, then the sinusoidal movement pattern
(the float product is truncated when assigned to the rect coordinate). -/
def update (s : Spike) (dt : ℚ) (env : Env) : Spike :=
  let s :=
    if s.popup ∧ ¬s.active then
      let t := s.timer - dt
      let wp := s.warn_phase + dt * 8
      if t ≤ 0 then { s with timer := t, warn_phase := wp, active := true }
      else { s with timer := t, warn_phase := wp }
    else s
  let mt := s.move_timer + dt
  match s.move_pattern with
  | MovePattern.none => { s with move_timer := mt }
  | MovePattern.horizontal speed range_val =>
      { s with move_timer := mt,
               rect := { s.rect with
                 x := pyTrunc ((s.original_pos.1 : ℚ) + env.sinq (mt * speed) * range_val) } }
  | MovePattern.vertical speed range_val =>
      { s with move_timer := mt,
               rect := { s.rect with
                 y := pyTrunc ((s.original_pos.2 : ℚ) + env.sinq (mt * speed) * range_val) } }

/-- `Spike.get_danger_zone`: the lethal triangle, present only when active. -/
def get_danger_zone (s : Spike) : Option ((ℤ × ℤ) × (ℤ × ℤ) × (ℤ × ℤ)) :=
  if ¬s.active then Option.none
  else Option.some ((s.rect.centerx, s.rect.top),
                    (s.rect.left + 4, s.rect.bottom - 4),
                    (s.rect.right - 4, s.rect.bottom - 4))

end Spike

/-- `FallingStone` (desktop): warns when the player enters its trigger band,
then drops, bounces and settles. -/
structure FallingStone where
  rect : Rect
  vy : ℚ
  vx : ℚ
  rotation : ℚ
  angular_velocity : ℚ
  dropped : Bool
  settled : Bool
  warning : Bool
  warning_timer : ℚ
  trigger_range : ℤ × ℤ
  bounces : ℕ
  max_bounces : ℕ
deriving DecidableEq, Repr

namespace FallingStone

/-- `FallingStone.__init__`: a 45x45 stone, warning timer preloaded with the
configured warning duration. -/
def make (x top_y : ℤ) (trigger_range : ℤ × ℤ) (warning_time : ℚ) : FallingStone :=
  ⟨⟨x, top_y, 45, 45⟩, 0, 0, 0, 0, false, false, false, warning_time, trigger_range, 0, 2⟩

/-- `FallingStone.trigger_check`: start warning once the player's x enters the
trigger band (only while neither warned nor dropped). -/
def trigger_check (s : FallingStone) (player_x : ℤ) : FallingStone :=
  if ¬s.dropped ∧ ¬s.warning ∧ s.trigger_range.1 ≤ player_x ∧ player_x ≤ s.trigger_range.2
  then { s with warning := true }
  else s

/-- `FallingStone.update` (desktop): count the warning timer down to the drop,
then integrate, bouncing off the first colliding platform. -/
def update (s : FallingStone) (dt : ℚ) (platforms : List Rect)
    (particles : List DParticle) (env : Env) (k : ℕ) :
    FallingStone × List DParticle × ℕ :=
  let sk :=
    if s.warning ∧ ¬s.dropped then
      let t := s.warning_timer - dt
      if t ≤ 0 then
        ({ s with warning_timer := t, dropped := true, vy := 0,
                  angular_velocity := env.uniform k (-5) 5 }, k + 1)
      else ({ s with warning_timer := t }, k)
    else (s, k)
  let s := sk.1
  let k := sk.2
  if s.dropped ∧ ¬s.settled then
    let vy := min (s.vy + GRAVITY * 1.5) TERMINAL_VELOCITY
    let rect := { s.rect with x := s.rect.x + pyTrunc s.vx, y := s.rect.y + pyTrunc vy }
    let rotation := s.rotation + s.angular_velocity * dt
    match platforms.find? (fun p => rect.collide p) with
    | Option.none =>
        ({ s with vy := vy, rect := rect, rotation := rotation }, particles, k)
    | Option.some p =>
        if s.bounces < s.max_bounces then
          let rect := rect.setBottom p.top
          let vy' := -vy * 0.4
          let vx := s.vx + env.uniform k (-2) 2
          let av := s.angular_velocity * 0.7
          let pk := ParticleSystem.add_explosion particles
            ((rect.centerx : ℚ), (rect.bottom : ℚ)) 15 COLOR_IMPACT (-5, 5) env (k + 1)
          ({ s with rect := rect, vy := vy', vx := vx, angular_velocity := av,
                    rotation := rotation, bounces := s.bounces + 1 }, pk.1, pk.2)
        else
          let rect := rect.setBottom p.top
          let vx := s.vx * 0.8
          let av := s.angular_velocity * 0.9
          let settled := decide (|vx| < 0.1 ∧ |av| < 0.1)
          let pk := ParticleSystem.add_explosion particles
            ((rect.centerx : ℚ), (rect.bottom : ℚ)) 25 COLOR_IMPACT (-5, 5) env k
          ({ s with rect := rect, vy := 0, vx := vx, angular_velocity := av,
                    rotation := rotation, settled := settled }, pk.1, pk.2)
  else (s, particles, k)

end FallingStone

/-- `Door` (desktop): one rectangle that teleports to `alt_pos` the first time
the player approaches it; `open` is renamed `is_open`. -/
structure Door where
  rect : Rect
  alt_pos : ℤ × ℤ
  trolled_once : Bool
  is_open : Bool
  pulse : ℚ
  glow_intensity : ℚ
deriving DecidableEq, Repr

namespace Door

/-- `Door.__init__` (the unused `teleport_particles` list is omitted). -/
def make (pos1 pos2 : ℤ × ℤ) : Door :=
  ⟨⟨pos1.1, pos1.2, 40, 60⟩, pos2, false, false, 0, 0⟩

/-- Qualifying approach for the desktop troll: the player overlaps the door
rectangle inflated by (60, 20) and is not approaching from below. -/
def trollZone (d : Door) (player_rect : Rect) : Prop :=
  player_rect.collide (d.rect.inflate 60 20) = true ∧
    player_rect.centery ≤ d.rect.centery

instance (d : Door) (r : Rect) : Decidable (trollZone d r) := by
  unfold trollZone; infer_instance

/-- `Door.maybe_troll` (desktop): on the first qualifying approach, jump to
the alternate position and latch `trolled_once`. -/
def maybe_troll (d : Door) (player_rect : Rect) (particles : List DParticle)
    (env : Env) (k : ℕ) : Door × List DParticle × ℕ :=
  if ¬d.trolled_once ∧ trollZone d player_rect then
    let old_pos := d.rect.center
    let d' := { d with rect := d.rect.setTopLeft d.alt_pos, trolled_once := true }
    let pk := ParticleSystem.add_explosion particles
      ((old_pos.1 : ℚ), (old_pos.2 : ℚ)) 30 COLOR_DOOR (-5, 5) env k
    let pk' := ParticleSystem.add_explosion pk.1
      ((d'.rect.centerx : ℚ), (d'.rect.centery : ℚ)) 30 COLOR_DOOR (-5, 5) env pk.2
    (d', pk'.1, pk'.2)
  else (d, particles, k)

/-- `Door.set_open`. -/
def set_open (d : Door) : Door := { d with is_open := true, glow_intensity := 1.0 }

/-- `Door.update`: cosmetic pulse and glow. -/
def update (d : Door) (dt : ℚ) : Door :=
  let d := { d with pulse := d.pulse + dt * 3 }
  if d.is_open ∧ 0 < d.glow_intensity then
    { d with glow_intensity := min 1.0 (d.glow_intensity + dt * 2) }
  else d

/-- `Door.check_win_collision` (desktop): win only when open, overlapping the
deflated door, and not entering from below. -/
def check_win_collision (d : Door) (player_rect : Rect) : Bool :=
  d.is_open && player_rect.collide (d.rect.inflate (-5) (-5)) &&
    decide (player_rect.centery ≤ d.rect.centery + 10)

end Door

/-- `Player` (desktop, `src/gmae.py`): a 32x44 rectangle with velocity and
jump-assist timers. -/
structure Player where
  rect : Rect
  vx : ℚ
  vy : ℚ
  on_ground : Bool
  can_double_jump : Bool
  has_double_jumped : Bool
  dead : Bool
  win : Bool
  facing_right : Bool
  animation_timer : ℚ
  squash_stretch : ℚ
  coyote_time : ℚ
  coyote_timer : ℚ
  jump_buffer_time : ℚ
  jump_buffer_timer : ℚ
  wall_slide_timer : ℚ
  dust_timer : ℚ
deriving DecidableEq, Repr

namespace Player

/-- `Player.__init__` (desktop). -/
def make (x y : ℤ) : Player :=
  { rect := ⟨x, y, 32, 44⟩, vx := 0, vy := 0,
    on_ground := false, can_double_jump := false, has_double_jumped := false,
    dead := false, win := false, facing_right := true,
    animation_timer := 0, squash_stretch := 1.0,
    coyote_time := 0.1, coyote_timer := 0,
    jump_buffer_time := 0.1, jump_buffer_timer := 0,
    wall_slide_timer := 0, dust_timer := 0 }

/-- `Player.control` (desktop): horizontal acceleration with air control and
friction, jump buffering, regular jump (on coyote time) and double jump. -/
def control (p : Player) (keys : Keys) (dt : ℚ) : Player :=
  let move_input : ℤ :=
    (if keys.k_a || keys.k_left then -1 else 0) + (if keys.k_d || keys.k_right then 1 else 0)
  let facing_right :=
    if keys.k_d || keys.k_right then true
    else if keys.k_a || keys.k_left then false
    else p.facing_right
  let control_strength : ℚ := if p.on_ground then 1.0 else AIR_CONTROL
  let target_vx : ℚ := (move_input : ℚ) * MOVE_SPEED
  let accel : ℚ := if p.on_ground then 0.8 else 0.4
  let vx := p.vx + (target_vx - p.vx) * accel * control_strength
  let vx :=
    if p.on_ground then (if move_input = 0 then vx * FRICTION else vx)
    else vx * AIR_RESISTANCE
  let jump_pressed := keys.k_w || keys.k_space || keys.k_up
  let jbt := if jump_pressed then p.jump_buffer_time else p.jump_buffer_timer
  let p :=
    if 0 < jbt then
      if 0 < p.coyote_timer then
        { p with vy := JUMP_VELOCITY, on_ground := false, can_double_jump := true,
                 coyote_timer := 0, jump_buffer_timer := 0 }
      else if p.can_double_jump ∧ ¬p.has_double_jumped then
        { p with vy := DOUBLE_JUMP_VELOCITY, has_double_jumped := true,
                 can_double_jump := false, jump_buffer_timer := 0 }
      else { p with jump_buffer_timer := jbt }
    else { p with jump_buffer_timer := jbt }
  let p := { p with vx := vx, facing_right := facing_right }
  let p :=
    if 0 < p.jump_buffer_timer then { p with jump_buffer_timer := p.jump_buffer_timer - dt }
    else p
  if 0 < p.coyote_timer then { p with coyote_timer := p.coyote_timer - dt } else p

/-- One iteration of the desktop horizontal collision loop: snap against a
colliding platform on the side being moved into. -/
def hstep (acc : Rect × ℚ) (plat : Rect) : Rect × ℚ :=
  if acc.1.collide plat then
    if 0 < acc.2 then (acc.1.setRight plat.left, 0)
    else if acc.2 < 0 then (acc.1.setLeft plat.right, 0)
    else acc
  else acc

/-- Accumulator of the desktop vertical collision loop. -/
structure VAcc where
  rect : Rect
  vy : ℚ
  on_ground : Bool
  has_double_jumped : Bool
  can_double_jump : Bool
  squash_stretch : ℚ
  particles : List DParticle
  k : ℕ

/-- One iteration of the desktop vertical collision loop: snap to the
platform top when falling (with hard-landing dust) or to its bottom when
ascending, zeroing the vertical velocity. -/
def vstep (env : Env) (acc : VAcc) (plat : Rect) : VAcc :=
  if acc.rect.collide plat then
    if 0 < acc.vy then
      let rect := acc.rect.setBottom plat.top
      let hard := decide (8 < acc.vy)
      let squash := if hard then 0.7 else acc.squash_stretch
      let pk :=
        if hard then
          ParticleSystem.add_dust acc.particles ((rect.centerx : ℚ), (rect.bottom : ℚ)) 8
            env acc.k
        else (acc.particles, acc.k)
      { rect := rect, vy := 0, on_ground := true,
        has_double_jumped := false, can_double_jump := true,
        squash_stretch := squash, particles := pk.1, k := pk.2 }
    else if acc.vy < 0 then
      { acc with rect := acc.rect.setTop plat.bottom, vy := 0 }
    else acc
  else acc

/-- `Player.physics` (desktop): gravity, axis-separated movement and
collision resolution, coyote-timer refresh, screen-bounds clamping, running
dust, and squash/stretch recovery. -/
def physics (p : Player) (dt : ℚ) (platforms : List Rect)
    (particles : List DParticle) (env : Env) (k : ℕ) :
    Player × List DParticle × ℕ :=
  let vy := if ¬p.on_ground then min (p.vy + GRAVITY) TERMINAL_VELOCITY else p.vy
  let rect := { p.rect with x := p.rect.x + pyTrunc p.vx }
  let rv := platforms.foldl hstep (rect, p.vx)
  let rect := { rv.1 with y := rv.1.y + pyTrunc vy }
  let was_on_ground := p.on_ground
  let acc0 : VAcc :=
    { rect := rect, vy := vy, on_ground := false,
      has_double_jumped := p.has_double_jumped, can_double_jump := p.can_double_jump,
      squash_stretch := p.squash_stretch, particles := particles, k := k }
  let acc := platforms.foldl (vstep env) acc0
  let coyote_timer :=
    if was_on_ground ∧ ¬acc.on_ground then p.coyote_time
    else if acc.on_ground then p.coyote_time
    else p.coyote_timer
  let rect := acc.rect.setLeft (max 0 acc.rect.left)
  let rect := rect.setRight (min WIDTH rect.right)
  let rvog :=
    if rect.top < 0 then (rect.setTop 0, max 0 acc.vy, acc.on_ground)
    else (rect, acc.vy, acc.on_ground)
  let rvog :=
    if HEIGHT < rvog.1.bottom then (rvog.1.setBottom HEIGHT, (0 : ℚ), true)
    else rvog
  let rect := rvog.1
  let vy := rvog.2.1
  let on_ground := rvog.2.2
  let dustState :=
    if on_ground ∧ 2 < |rv.2| then
      let t := p.dust_timer + dt
      if 0.1 < t then
        let off := env.randint acc.k (-8) 8
        let pk := ParticleSystem.add_dust acc.particles
          (((rect.centerx + off : ℤ) : ℚ), (rect.bottom : ℚ)) 5 env (acc.k + 1)
        ((0 : ℚ), pk.1, pk.2)
      else (t, acc.particles, acc.k)
    else (p.dust_timer, acc.particles, acc.k)
  let squash :=
    if acc.squash_stretch < 1.0 then min 1.0 (acc.squash_stretch + dt * 4)
    else acc.squash_stretch
  ({ p with rect := rect, vx := rv.2, vy := vy, on_ground := on_ground,
            has_double_jumped := acc.has_double_jumped,
            can_double_jump := acc.can_double_jump,
            coyote_timer := coyote_timer,
            dust_timer := dustState.1,
            animation_timer := p.animation_timer + dt,
            squash_stretch := squash },
   dustState.2.1, dustState.2.2)

end Player

/-- `Game.point_in_triangle` (identical in both variants): barycentric
point-in-triangle test with the near-zero denominator guard. -/
def point_in_triangle (point : ℚ × ℚ) (tri : (ℚ × ℚ) × (ℚ × ℚ) × (ℚ × ℚ)) : Bool :=
  let x := point.1
  let y := point.2
  let x1 := tri.1.1
  let y1 := tri.1.2
  let x2 := tri.2.1.1
  let y2 := tri.2.1.2
  let x3 := tri.2.2.1
  let y3 := tri.2.2.2
  let denominator := (y2 - y3) * (x1 - x3) + (x3 - x2) * (y1 - y3)
  if |denominator| < 0.001 then false
  else
    let a := ((y2 - y3) * (x - x3) + (x3 - x2) * (y - y3)) / denominator
    let b := ((y3 - y1) * (x - x3) + (x1 - x3) * (y - y3)) / denominator
    let c := 1 - a - b
    decide (0 ≤ a ∧ 0 ≤ b ∧ 0 ≤ c)

/-- Integer point to rational point (spike triangles are integer data). -/
def ptQ (p : ℤ × ℤ) : ℚ × ℚ := ((p.1 : ℚ), (p.2 : ℚ))

/-- The five sampled points of `Game.point_in_triangle_collision`: four
corners plus the center of the player rectangle. -/
def samplePoints (rect : Rect) : List (ℤ × ℤ) :=
  [(rect.left, rect.top), (rect.right, rect.top),
   (rect.left, rect.bottom), (rect.right, rect.bottom),
   (rect.centerx, rect.centery)]

/-- `Game.point_in_triangle_collision` (identical in both variants): true iff
any sampled point of the rectangle lies inside the triangle. -/
def point_in_triangle_collision (rect : Rect) (tri : (ℤ × ℤ) × (ℤ × ℤ) × (ℤ × ℤ)) : Bool :=
  (samplePoints rect).any (fun c => point_in_triangle (ptQ c) (ptQ tri.1, ptQ tri.2.1, ptQ tri.2.2))

/-- Lethal spike test used in `Game.handle_collisions`: the spike has an
(active) danger zone and the five-point triangle test hits it. -/
def spikeHits (player_rect : Rect) (s : Spike) : Bool :=
  match s.get_danger_zone with
  | Option.none => false
  | Option.some dz => point_in_triangle_collision player_rect dz

/-- Desktop `Game` aggregate.  `best_time = Option.none` models the initial
`float('inf')`; wall-clock readings of `time.time()` are passed in as `now`. -/
structure Game where
  state : GameState
  camera : Camera
  particles : List DParticle
  start_time : ℚ
  death_time : Option ℚ
  win_time : Option ℚ
  best_time : Option ℚ
  attempts : ℕ
  platforms : List Rect
  magic_wall : MagicWall
  spikes : List Spike
  falling_stones : List FallingStone
  door : Door
  win_trigger : Rect
  player : Player

namespace Game

/-- `Game.setup_level` (desktop): the hand-authored level. -/
def setup_level (g : Game) : Game :=
  { g with
    platforms := [
      ⟨0, HEIGHT - 50, WIDTH, 50⟩,
      ⟨120, HEIGHT - 160, 200, 20⟩,
      ⟨400, HEIGHT - 240, 160, 20⟩,
      ⟨640, HEIGHT - 320, 180, 20⟩,
      ⟨900, HEIGHT - 200, 200, 20⟩,
      ⟨1100, HEIGHT - 280, 120, 20⟩,
      ⟨300, HEIGHT - 120, 80, 16⟩,
      ⟨580, HEIGHT - 160, 60, 16⟩,
      ⟨820, HEIGHT - 240, 70, 16⟩],
    magic_wall := MagicWall.make 350 (HEIGHT - 140) 70 80,
    spikes := [
      Spike.make 180 (HEIGHT - 178) 32 26 false 0 MovePattern.none,
      Spike.make 450 (HEIGHT - 258) 32 26 true 2.0 MovePattern.none,
      Spike.make 700 (HEIGHT - 338) 32 26 false 0 (MovePattern.horizontal 2 60),
      Spike.make 950 (HEIGHT - 218) 32 26 true 1.0 MovePattern.none,
      Spike.make 1150 (HEIGHT - 298) 32 26 false 0 (MovePattern.vertical 1.5 30)],
    falling_stones := [
      FallingStone.make 480 50 (420, 540) 1.5,
      FallingStone.make 680 30 (600, 720) 1.0,
      FallingStone.make 980 40 (920, 1020) 2.0],
    door := Door.make (1140, HEIGHT - 340) (160, HEIGHT - 220),
    win_trigger := ⟨WIDTH - 60, 0, 60, HEIGHT⟩,
    player := Player.make 60 (HEIGHT - 100) }

/-- `Game.__init__` (desktop): fresh session at wall-clock time `now`. -/
def make (now : ℚ) : Game :=
  setup_level
    { state := GameState.PLAYING, camera := Camera.make, particles := [],
      start_time := now, death_time := Option.none, win_time := Option.none,
      best_time := Option.none, attempts := 0,
      platforms := [], magic_wall := MagicWall.make 0 0 0 0,
      spikes := [], falling_stones := [],
      door := Door.make (0, 0) (0, 0), win_trigger := ⟨0, 0, 0, 0⟩,
      player := Player.make 0 0 }

/-- `Game.kill_player`: go to DEAD, count the attempt, spawn death feedback. -/
def kill_player (g : Game) (now : ℚ) (env : Env) (k : ℕ) : Game × ℕ :=
  let pk := ParticleSystem.add_explosion g.particles
    (ptQ g.player.rect.center) 40 (255, 100, 100) (-8, 8) env k
  ({ g with state := GameState.DEAD,
            player := { g.player with dead := true },
            death_time := Option.some now,
            attempts := g.attempts + 1,
            particles := pk.1,
            camera := g.camera.add_shake 12 0.8 }, pk.2)

/-- `Game.win_game`: go to WON, update the best completion time. -/
def win_game (g : Game) (now : ℚ) (env : Env) (k : ℕ) : Game × ℕ :=
  let current := now - g.start_time
  let best :=
    match g.best_time with
    | Option.none => Option.some current
    | Option.some b => if current < b then Option.some current else Option.some b
  let pk := ParticleSystem.add_explosion g.particles
    (ptQ g.player.rect.center) 60 COLOR_DOOR (-6, 6) env k
  ({ g with state := GameState.WON,
            player := { g.player with win := true },
            win_time := Option.some now,
            best_time := best,
            particles := pk.1,
            camera := g.camera.add_shake 6 0.5 }, pk.2)

/-- The magic-wall contact block opening `Game.handle_collisions` (desktop):
one `hit` per frame of overlap with the wall inflated by (5, 5), with
feedback particles and camera shake. -/
def wallHitBlock (g : Game) (env : Env) (k : ℕ) : Game × ℕ :=
  if g.magic_wall.alive ∧ g.player.rect.collide (g.magic_wall.rect.inflate 5 5) = true then
    let hw := g.magic_wall.hit
    if hw.2 then
      let pk := ParticleSystem.add_explosion g.particles
        (ptQ g.magic_wall.rect.center) 50 COLOR_WALL_CRACK (-5, 5) env k
      ({ g with magic_wall := hw.1, particles := pk.1,
                camera := g.camera.add_shake 8 0.5 }, pk.2)
    else
      let pk := ParticleSystem.add_explosion g.particles
        ((g.player.rect.centerx : ℚ), (g.magic_wall.rect.centery : ℚ)) 20
        COLOR_WALL_CRACK (-5, 5) env k
      ({ g with magic_wall := hw.1, particles := pk.1,
                camera := g.camera.add_shake 4 0.3 }, pk.2)
  else (g, k)

/-- `Game.handle_collisions` (desktop): wall hit, spike kill, stone kill,
door troll, win trigger and win check, in source order; a kill returns
immediately. -/
def handle_collisions (g : Game) (now : ℚ) (env : Env) (k : ℕ) : Game × ℕ :=
  if g.state ≠ GameState.PLAYING then (g, k)
  else
    let gk := wallHitBlock g env k
    let g := gk.1
    let k := gk.2
    match g.spikes.find? (spikeHits g.player.rect) with
    | Option.some _ => kill_player g now env k
    | Option.none =>
      match g.falling_stones.find? (fun s => s.rect.collide g.player.rect) with
      | Option.some _ => kill_player g now env k
      | Option.none =>
        let dk := g.door.maybe_troll g.player.rect g.particles env k
        let g := { g with door := dk.1, particles := dk.2.1 }
        let k := dk.2.2
        let g :=
          if g.player.rect.collide g.win_trigger then { g with door := g.door.set_open } else g
        if g.door.check_win_collision g.player.rect then win_game g now env k else (g, k)

/-- `Game.reset_game` (desktop): back to PLAYING, rebuild the whole level,
fresh particle system and camera; attempts and best time are not touched. -/
def reset_game (g : Game) (now : ℚ) : Game :=
  let g := { g with state := GameState.PLAYING, start_time := now,
                    death_time := Option.none, win_time := Option.none }
  let g := g.setup_level
  { g with particles := [], camera := Camera.make }

/-- The platform list built inside desktop `Game.update`: every static
platform, plus a copy of the magic wall's rectangle while it is alive. -/
def platformsForCollision (g : Game) : List Rect :=
  g.platforms ++ (if g.magic_wall.alive then [g.magic_wall.rect] else [])

/-- `Game.update` (desktop): input (reset/quit), control, physics against the
per-frame platform list, hazard updates, systems, then collision handling.
The second component is the Python return value (`false` = quit). -/
def update (g : Game) (keys : Keys) (dt : ℚ) (now : ℚ) (env : Env) (k : ℕ) :
    Game × Bool × ℕ :=
  if keys.k_r then (reset_game g now, true, k)
  else if keys.k_escape then (g, false, k)
  else
    let g := if g.state = GameState.PLAYING then { g with player := g.player.control keys dt } else g
    let ppk := g.player.physics dt (platformsForCollision g) g.particles env k
    let g := { g with player := ppk.1, particles := ppk.2.1 }
    let k := ppk.2.2
    let g := { g with spikes := g.spikes.map (fun (s : Spike) => s.update dt env) }
    let stk := g.falling_stones.foldl
      (fun (acc : List FallingStone × List DParticle × ℕ) (s : FallingStone) =>
        let s := s.trigger_check g.player.rect.centerx
        let r := s.update dt g.platforms acc.2.1 env acc.2.2
        (acc.1 ++ [r.1], r.2.1, r.2.2))
      ([], g.particles, k)
    let g := { g with falling_stones := stk.1, particles := stk.2.1 }
    let k := stk.2.2
    let g := { g with magic_wall := g.magic_wall.update dt }
    let g := { g with door := g.door.update dt }
    let g := { g with particles := ParticleSystem.update g.particles dt }
    let g := { g with camera := (g.camera.follow g.player.rect 0.12).update dt }
    let hk := handle_collisions g now env k
    (hk.1, true, hk.2)

end Game

/-! ## Web variant (`src/New folder/main.py`)

The web variant shares `Rect`, the constants, `MagicWall`, `Spike`,
`point_in_triangle` and `point_in_triangle_collision` with the desktop
variant; the definitions below are the parts that differ and are needed by
the claims: the capped particle system, fake platforms, the player physics,
and the per-frame platform list of `Game.update`. -/

namespace Web

/-- Web `ParticleSystem`: the particle pool plus its hard cap. -/
structure ParticleSystem where
  particles : List DParticle
  max_particles : ℕ
deriving Repr

namespace ParticleSystem

/-- `ParticleSystem.__init__` (web): empty pool, cap 100. -/
def make : ParticleSystem := ⟨[], 100⟩

/-- One loop iteration of web `ParticleSystem.add_explosion`. -/
def mkExplosionParticle (env : Env) (k : ℕ) (pos : ℚ × ℚ) (color : ℕ × ℕ × ℕ)
    (vel_range : ℚ × ℚ) : DParticle :=
  let vx := env.uniform k vel_range.1 vel_range.2
  let vy := env.uniform (k + 1) vel_range.1 (-1)
  let life := env.uniform (k + 2) 0.5 1.0
  let size := env.uniform (k + 3) 2 4
  ⟨pos, (vx, vy), life, life, color, size⟩

/-- Web `ParticleSystem.add_explosion`: clamp the count to 10, evict the
oldest particles when the cap would be exceeded, then append. -/
def add_explosion (ps : ParticleSystem) (pos : ℚ × ℚ) (count : ℕ)
    (color : ℕ × ℕ × ℕ) (vel_range : ℚ × ℚ) (env : Env) (k : ℕ) :
    ParticleSystem × ℕ :=
  let count := min count 10
  let base :=
    if ps.max_particles < ps.particles.length + count then
      ps.particles.drop (ps.particles.length - (ps.max_particles - count))
    else ps.particles
  ({ ps with particles :=
       base ++ (List.range count).map (fun i => mkExplosionParticle env (k + 4 * i) pos color vel_range) },
   k + 4 * count)

/-- One loop iteration of web `ParticleSystem.add_dust`. -/
def mkDustParticle (env : Env) (k : ℕ) (pos : ℚ × ℚ) : DParticle :=
  let vx := env.uniform k (-1) 1
  let vy := env.uniform (k + 1) (-2) (-0.5)
  let life := env.uniform (k + 2) 0.2 0.6
  let size := env.uniform (k + 3) 1 2
  ⟨pos, (vx, vy), life, life, COLOR_DUST, size⟩

/-- Web `ParticleSystem.add_dust`: skipped entirely when the cap would be
exceeded. -/
def add_dust (ps : ParticleSystem) (pos : ℚ × ℚ) (count : ℕ) (env : Env) (k : ℕ) :
    ParticleSystem × ℕ :=
  if ps.max_particles < ps.particles.length + count then (ps, k)
  else
    ({ ps with particles :=
         ps.particles ++ (List.range count).map (fun i => mkDustParticle env (k + 4 * i) pos) },
     k + 4 * count)

/-- Web `ParticleSystem._update_particle` minus the removal decision:
integrate one particle (the leading underscore of the Python name is
dropped). -/
def update_particle (dt : ℚ) (p : DParticle) : DParticle :=
  let vel := (p.vel.1, p.vel.2 + GRAVITY * 0.3)
  { p with vel := vel,
           pos := (p.pos.1 + vel.1, p.pos.2 + vel.2),
           life := p.life - dt }

/-- Web `ParticleSystem.update`: integrate and keep particles with life
remaining (`_update_particle` returns `life > 0`). -/
def update (ps : ParticleSystem) (dt : ℚ) : ParticleSystem :=
  { ps with particles :=
      (ps.particles.map (update_particle dt)).filter (fun p => decide (0 < p.life)) }

end ParticleSystem

end Web

namespace Web

/-- `FakePlatform` (web): solid until landed on, then fades out and leaves
the collision set. -/
structure FakePlatform where
  rect : Rect
  active : Bool
  triggered : Bool
  disappear_timer : ℚ
  disappear_delay : ℚ
  alpha : ℤ
deriving DecidableEq, Repr

namespace FakePlatform

/-- `FakePlatform.__init__`. -/
def make (x y w h : ℤ) (delay : ℚ) : FakePlatform :=
  ⟨⟨x, y, w, h⟩, true, false, 0, delay, 255⟩

/-- `FakePlatform.trigger`: start the disappear countdown once. -/
def trigger (f : FakePlatform) : FakePlatform :=
  if f.active ∧ ¬f.triggered then
    { f with triggered := true, disappear_timer := f.disappear_delay }
  else f

/-- `FakePlatform.update`: count down and deactivate (fading meanwhile). -/
def update (f : FakePlatform) (dt : ℚ) : FakePlatform :=
  if f.triggered then
    let t := f.disappear_timer - dt
    if t ≤ 0 then { f with disappear_timer := t, active := false }
    else { f with disappear_timer := t,
                  alpha := pyTrunc (255 * (t / f.disappear_delay)) }
  else f

end FakePlatform

/-- `Player` (web): a 30x50 rectangle; cached drawing surfaces omitted. -/
structure Player where
  rect : Rect
  vx : ℚ
  vy : ℚ
  on_ground : Bool
  facing_right : Bool
  can_double_jump : Bool
  has_double_jumped : Bool
  jump_buffer : ℚ
  coyote_time : ℚ
  dead : Bool
  win : Bool
  blink_timer : ℚ
  squash : ℚ
  stretch : ℚ
deriving DecidableEq, Repr

namespace Player

/-- `Player.__init__` (web). -/
def make (x y : ℤ) : Player :=
  { rect := ⟨x, y, 30, 50⟩, vx := 0, vy := 0,
    on_ground := false, facing_right := true,
    can_double_jump := true, has_double_jumped := false,
    jump_buffer := 0, coyote_time := 0,
    dead := false, win := false,
    blink_timer := 0, squash := 1.0, stretch := 1.0 }

/-- One iteration of the web horizontal collision loop (identical to the
desktop one). -/
def hstep (acc : Rect × ℚ) (plat : Rect) : Rect × ℚ :=
  if acc.1.collide plat then
    if 0 < acc.2 then (acc.1.setRight plat.left, 0)
    else if acc.2 < 0 then (acc.1.setLeft plat.right, 0)
    else acc
  else acc

/-- Accumulator of the web vertical collision loop. -/
structure VAcc where
  rect : Rect
  vy : ℚ
  on_ground : Bool
  jump_buffer : ℚ
  can_double_jump : Bool
  has_double_jumped : Bool
  squash : ℚ
  stretch : ℚ
  particles : ParticleSystem
  k : ℕ

/-- One iteration of the web vertical collision loop: when falling, snap to
the platform top and either fire the buffered jump or zero the velocity (the
landing-dust guard reads the already-zeroed velocity, so it never fires);
when ascending, snap to the platform bottom. -/
def vstep (env : Env) (acc : VAcc) (plat : Rect) : VAcc :=
  if acc.rect.collide plat then
    if 0 < acc.vy then
      let rect := acc.rect.setBottom plat.top
      if 0 < acc.jump_buffer then
        { acc with rect := rect, vy := JUMP_VELOCITY, on_ground := false,
                   jump_buffer := 0, can_double_jump := true,
                   has_double_jumped := false, squash := 0.7, stretch := 1.3 }
      else
        let vy0 : ℚ := 0
        let pk :=
          if 2 < |vy0| then
            ParticleSystem.add_dust acc.particles
              ((rect.centerx : ℚ), (rect.bottom : ℚ)) (pyTrunc (|vy0| / 2)).toNat env acc.k
          else (acc.particles, acc.k)
        { acc with rect := rect, vy := vy0, on_ground := true,
                   squash := 1.3, stretch := 0.7, particles := pk.1, k := pk.2 }
    else if acc.vy < 0 then
      { acc with rect := acc.rect.setTop plat.bottom, vy := 0 }
    else acc
  else acc

/-- `Player.physics` (web): friction, speed clamp, gravity, axis-separated
movement and collision (the vertical loop may fire a buffered jump), coyote
start, squash/stretch recovery, blink timer. -/
def physics (p : Player) (dt : ℚ) (platforms : List Rect)
    (particles : ParticleSystem) (env : Env) (k : ℕ) :
    Player × ParticleSystem × ℕ :=
  if p.dead ∨ p.win then (p, particles, k)
  else
    let vx := if p.on_ground then p.vx * FRICTION else p.vx * AIR_RESISTANCE
    let vx := max (-MOVE_SPEED) (min MOVE_SPEED vx)
    let vy := p.vy + GRAVITY
    let vy := if TERMINAL_VELOCITY < vy then TERMINAL_VELOCITY else vy
    let rect := { p.rect with x := pyTrunc ((p.rect.x : ℚ) + vx) }
    let rv := platforms.foldl hstep (rect, vx)
    let was_on_ground := p.on_ground
    let rect := { rv.1 with y := pyTrunc ((rv.1.y : ℚ) + vy) }
    let acc0 : VAcc :=
      { rect := rect, vy := vy, on_ground := false,
        jump_buffer := p.jump_buffer, can_double_jump := p.can_double_jump,
        has_double_jumped := p.has_double_jumped,
        squash := p.squash, stretch := p.stretch, particles := particles, k := k }
    let acc := platforms.foldl (vstep env) acc0
    let coyote_time := if was_on_ground ∧ ¬acc.on_ground then 0.1 else p.coyote_time
    let squash := acc.squash + (1.0 - acc.squash) * 0.2
    let stretch := acc.stretch + (1.0 - acc.stretch) * 0.2
    let blink := if 0 < p.blink_timer then p.blink_timer - dt else p.blink_timer
    ({ p with rect := acc.rect, vx := rv.2, vy := acc.vy,
              on_ground := acc.on_ground, jump_buffer := acc.jump_buffer,
              can_double_jump := acc.can_double_jump,
              has_double_jumped := acc.has_double_jumped,
              coyote_time := coyote_time, squash := squash, stretch := stretch,
              blink_timer := blink },
     acc.particles, acc.k)

end Player

/-- Static platforms of the web `Game.setup_level`. -/
def setup_platforms : List Rect :=
  [⟨0, HEIGHT - 50, WIDTH, 50⟩,
   ⟨120, HEIGHT - 160, 220, 20⟩,
   ⟨400, HEIGHT - 240, 180, 20⟩,
   ⟨640, HEIGHT - 320, 200, 20⟩,
   ⟨900, HEIGHT - 200, 220, 20⟩,
   ⟨1100, HEIGHT - 280, 140, 20⟩,
   ⟨300, HEIGHT - 120, 80, 16⟩,
   ⟨580, HEIGHT - 160, 60, 16⟩,
   ⟨820, HEIGHT - 240, 70, 16⟩]

/-- Fake platforms of the web `Game.setup_level`. -/
def setup_fake_platforms : List FakePlatform :=
  [FakePlatform.make 220 (HEIGHT - 200) 60 16 0.8,
   FakePlatform.make 750 (HEIGHT - 260) 50 16 0.7]

/-- Magic wall of the web `Game.setup_level` (the class is shared with the
desktop variant). -/
def setup_magic_wall : MagicWall := MagicWall.make 350 (HEIGHT - 140) 70 80

/-- The per-frame platform list built inside web `Game.update`: static
platforms within 800px of the player's center x, then active untriggered
fake platforms within 800px (as fresh `Platform` copies of their rects),
then the magic wall while alive and within 800px. -/
def platformsForCollision (statics : List Rect) (fakes : List FakePlatform)
    (magic_wall : MagicWall) (player_x : ℤ) : List Rect :=
  (statics.filter (fun p => decide (|p.centerx - player_x| < 800))) ++
    ((fakes.filter (fun f =>
        f.active && !f.triggered && decide (|f.rect.centerx - player_x| < 800))).map
      (fun f => f.rect)) ++
    (if magic_wall.alive ∧ |magic_wall.rect.centerx - player_x| < 800
     then [magic_wall.rect] else [])

end Web

/-! ## Claims -/

/-- Collinearity of the three triangle vertices (zero cross product). -/
def collinearTri (t : (ℚ × ℚ) × (ℚ × ℚ) × (ℚ × ℚ)) : Prop :=
  (t.2.1.1 - t.1.1) * (t.2.2.2 - t.1.2) = (t.2.2.1 - t.1.1) * (t.2.1.2 - t.1.2)

/-- Claim C7: `point_in_triangle` classifies (2,2) as inside and (9,9) as
outside the right triangle with vertices (0,0), (0,10), (10,0); and for every
degenerate (collinear) triangle, whose barycentric denominator falls under
the 0.001 guard, every point is classified as outside. -/
theorem C7_point_in_triangle_classification :
    point_in_triangle (2, 2) ((0, 0), (0, 10), (10, 0)) = true ∧
    point_in_triangle (9, 9) ((0, 0), (0, 10), (10, 0)) = false ∧
    ∀ (p : ℚ × ℚ) (t : (ℚ × ℚ) × (ℚ × ℚ) × (ℚ × ℚ)), collinearTri t →
      point_in_triangle p t = false := by
  refine ⟨by norm_num [point_in_triangle], by norm_num [point_in_triangle], ?_⟩
  intro p t hcol
  have hd : (t.2.1.2 - t.2.2.2) * (t.1.1 - t.2.2.1) +
      (t.2.2.1 - t.2.1.1) * (t.1.2 - t.2.2.2) = 0 := by
    unfold collinearTri at hcol
    linear_combination hcol
  simp only [point_in_triangle, hd]
  norm_num

/-- Witness for C7: the degenerate-triangle branch applied to the collinear
triangle (0,0), (1,1), (2,2) and the point (5,5) lying on that line. -/
theorem C7_witness :
    point_in_triangle (5, 5) ((0, 0), (1, 1), (2, 2)) = false :=
  C7_point_in_triangle_classification.2.2 (5, 5) ((0, 0), (1, 1), (2, 2))
    (by norm_num [collinearTri])

/-- Claim C1: a `MagicWall` starting alive with health 2 survives the first
`hit` (merely cracking) and is destroyed by the second, and the per-frame
platform collision list of desktop `Game.update` contains the wall's
rectangle while it is alive but no longer once it is destroyed. -/
theorem C1_magic_wall_two_hits (w : MagicWall) (h2 : w.health = 2) (ha : w.alive = true)
    (g1 g2 : Game) (hg1 : g1.magic_wall = w.hit.1) (hg2 : g2.magic_wall = w.hit.1.hit.1) :
    w.hit.1.alive = true ∧ w.hit.2 = false ∧ w.hit.1.cracked = true ∧
    w.hit.1.hit.1.alive = false ∧ w.hit.1.hit.2 = true ∧
    g1.platformsForCollision = g1.platforms ++ [w.rect] ∧
    g2.platformsForCollision = g2.platforms := by
  simp [MagicWall.hit, Game.platformsForCollision, hg1, hg2, h2, ha]

/-- Witness for C1: the wall of the desktop level, hit twice, with the
platform list evaluated in a session holding that wall. -/
theorem C1_witness :
    (MagicWall.make 350 (HEIGHT - 140) 70 80).hit.1.alive = true ∧
    (MagicWall.make 350 (HEIGHT - 140) 70 80).hit.1.hit.1.alive = false ∧
    ({ Game.make 0 with magic_wall := (MagicWall.make 350 (HEIGHT - 140) 70 80).hit.1 }.platformsForCollision
       = { Game.make 0 with magic_wall := (MagicWall.make 350 (HEIGHT - 140) 70 80).hit.1 }.platforms
         ++ [(MagicWall.make 350 (HEIGHT - 140) 70 80).rect]) ∧
    ({ Game.make 0 with magic_wall := (MagicWall.make 350 (HEIGHT - 140) 70 80).hit.1.hit.1 }.platformsForCollision
       = { Game.make 0 with magic_wall := (MagicWall.make 350 (HEIGHT - 140) 70 80).hit.1.hit.1 }.platforms) := by
  have h := C1_magic_wall_two_hits (MagicWall.make 350 (HEIGHT - 140) 70 80) rfl rfl
    { Game.make 0 with magic_wall := (MagicWall.make 350 (HEIGHT - 140) 70 80).hit.1 }
    { Game.make 0 with magic_wall := (MagicWall.make 350 (HEIGHT - 140) 70 80).hit.1.hit.1 }
    rfl rfl
  exact ⟨h.1, h.2.2.2.1, h.2.2.2.2.2.1, h.2.2.2.2.2.2⟩

/-- Claim C10: `reset_game` returns to PLAYING, rebuilds the entire level at
its initial values (player, platforms, wall, spikes, stones, door, win
trigger), replaces the particle system and camera with fresh instances and
restarts the session clock, while the attempts counter and recorded best
time survive unchanged. -/
theorem C10_reset_game (g : Game) (now : ℚ) :
    (g.reset_game now).state = GameState.PLAYING ∧
    (g.reset_game now).attempts = g.attempts ∧
    (g.reset_game now).best_time = g.best_time ∧
    (g.reset_game now).player = Player.make 60 (HEIGHT - 100) ∧
    (g.reset_game now).platforms = (Game.make now).platforms ∧
    (g.reset_game now).magic_wall = MagicWall.make 350 (HEIGHT - 140) 70 80 ∧
    (g.reset_game now).spikes = (Game.make now).spikes ∧
    (g.reset_game now).falling_stones = (Game.make now).falling_stones ∧
    (g.reset_game now).door = Door.make (1140, HEIGHT - 340) (160, HEIGHT - 220) ∧
    (g.reset_game now).win_trigger = Rect.mk (WIDTH - 60) 0 60 HEIGHT ∧
    (g.reset_game now).particles = [] ∧
    (g.reset_game now).camera = Camera.make ∧
    (g.reset_game now).start_time = now ∧
    (g.reset_game now).death_time = Option.none ∧
    (g.reset_game now).win_time = Option.none := by
  simp [Game.reset_game, Game.setup_level, Game.make]

/-- Claim C5: from a grounded state with zero velocity (coyote timer running,
as desktop `Player.physics` guarantees while grounded), a jump press sets the
vertical velocity to `JUMP_VELOCITY` (-15.0) and clears `on_ground`; a second
press while airborne with the double jump available sets it to
`DOUBLE_JUMP_VELOCITY` (-13.5) and marks the double jump used; a third press
before landing leaves the vertical velocity unchanged. -/
theorem C5_jump_chain (p : Player) (keys : Keys) (dt : ℚ)
    (hjump : (keys.k_w || keys.k_space || keys.k_up) = true)
    (hg : p.on_ground = true)
    (hcoy : 0 < p.coyote_timer)
    (hvy : p.vy = 0)
    (hbt : 0 < p.jump_buffer_time)
    (hdj : p.has_double_jumped = false) :
    (p.control keys dt).vy = JUMP_VELOCITY ∧
    (p.control keys dt).on_ground = false ∧
    ((p.control keys dt).control keys dt).vy = DOUBLE_JUMP_VELOCITY ∧
    ((p.control keys dt).control keys dt).has_double_jumped = true ∧
    (((p.control keys dt).control keys dt).control keys dt).vy
      = ((p.control keys dt).control keys dt).vy := by
  simp [Player.control, hjump, hg, hcoy, hvy, hbt, hdj]

/-- Witness for C5: the desktop player, grounded at spawn with the coyote
timer freshly set, holding W for three consecutive frames. -/
theorem C5_witness :
    (({ Player.make 60 (HEIGHT - 100) with on_ground := true, coyote_timer := 0.1 } : Player).control
        ⟨false, false, false, false, true, false, false, false, false⟩ (1/60)).vy = JUMP_VELOCITY ∧
    ((({ Player.make 60 (HEIGHT - 100) with on_ground := true, coyote_timer := 0.1 } : Player).control
        ⟨false, false, false, false, true, false, false, false, false⟩ (1/60)).control
        ⟨false, false, false, false, true, false, false, false, false⟩ (1/60)).vy = DOUBLE_JUMP_VELOCITY := by
  have h := C5_jump_chain
    { Player.make 60 (HEIGHT - 100) with on_ground := true, coyote_timer := 0.1 }
    ⟨false, false, false, false, true, false, false, false, false⟩ (1/60)
    rfl rfl (by norm_num) rfl (by norm_num [Player.make]) rfl
  exact ⟨h.1, h.2.2.1⟩

/-- Door states along a session: one `maybe_troll` call per frame, threading
the particle pool and entropy counter exactly as `Game.handle_collisions`
does. -/
def trollTrace (env : Env) : Door → List DParticle → ℕ → List Rect → List Door
  | _, _, _, [] => []
  | d, ps, k, r :: rs =>
      let res := d.maybe_troll r ps env k
      res.1 :: trollTrace env res.1 res.2.1 res.2.2 rs

/-- Number of frames on which the door rectangle changed, along a trace. -/
def rectChanges : Door → List Door → ℕ
  | _, [] => 0
  | d, d' :: ds => (if d'.rect = d.rect then 0 else 1) + rectChanges d' ds

theorem maybe_troll_latched (d : Door) (r : Rect) (ps : List DParticle) (env : Env) (k : ℕ)
    (h : d.trolled_once = true) : d.maybe_troll r ps env k = (d, ps, k) := by
  simp [Door.maybe_troll, h]

theorem rectChanges_trollTrace_latched (env : Env) (rs : List Rect) :
    ∀ (d : Door) (ps : List DParticle) (k : ℕ), d.trolled_once = true →
      rectChanges d (trollTrace env d ps k rs) = 0 := by
  induction rs with
  | nil => intro d ps k _; simp [trollTrace, rectChanges]
  | cons r rs ih =>
      intro d ps k h
      simp only [trollTrace, maybe_troll_latched d r ps env k h, rectChanges]
      simp [ih d ps k h]

theorem maybe_troll_sets_flag (d : Door) (r : Rect) (ps : List DParticle) (env : Env) (k : ℕ)
    (h : d.trolled_once = false) :
    ((d.maybe_troll r ps env k).1.trolled_once = true ↔ Door.trollZone d r) ∧
    (Door.trollZone d r → (d.maybe_troll r ps env k).1.rect = d.rect.setTopLeft d.alt_pos) := by
  by_cases hz : Door.trollZone d r
  · simp [Door.maybe_troll, h, hz]
  · simp [Door.maybe_troll, h, hz]

theorem rectChanges_trollTrace_le_one (env : Env) (rs : List Rect) :
    ∀ (d : Door) (ps : List DParticle) (k : ℕ),
      rectChanges d (trollTrace env d ps k rs) ≤ 1 := by
  induction rs with
  | nil => intro d ps k; simp [trollTrace, rectChanges]
  | cons r rs ih =>
      intro d ps k
      by_cases h : d.trolled_once = true
      · rw [rectChanges_trollTrace_latched env (r :: rs) d ps k h]
        exact Nat.zero_le 1
      · have h' : d.trolled_once = false := by simpa using h
        by_cases hz : Door.trollZone d r
        · simp only [trollTrace, rectChanges]
          have hflag : (d.maybe_troll r ps env k).1.trolled_once = true := by
            simp [Door.maybe_troll, h', hz]
          rw [rectChanges_trollTrace_latched env rs _ _ _ hflag]
          split <;> simp
        · have hstep : d.maybe_troll r ps env k = (d, ps, k) := by
            simp [Door.maybe_troll, h', hz]
          simp only [trollTrace, hstep, rectChanges]
          simpa using ih d ps k

/-- Claim C4: the desktop door's troll is one-shot: once `trolled_once` is
set, `maybe_troll` never changes the door again; from an untrolled state the
flag is set exactly by a qualifying overlap (which swaps the rectangle to the
alternate position); and along any sequence of frames the door rectangle
changes on at most one frame. -/
theorem C4_door_troll_once :
    (∀ (d : Door) (r : Rect) (ps : List DParticle) (env : Env) (k : ℕ),
       d.trolled_once = true → d.maybe_troll r ps env k = (d, ps, k)) ∧
    (∀ (d : Door) (r : Rect) (ps : List DParticle) (env : Env) (k : ℕ),
       d.trolled_once = false →
         ((d.maybe_troll r ps env k).1.trolled_once = true ↔ Door.trollZone d r) ∧
         (Door.trollZone d r →
            (d.maybe_troll r ps env k).1.rect = d.rect.setTopLeft d.alt_pos)) ∧
    (∀ (env : Env) (d : Door) (ps : List DParticle) (k : ℕ) (rs : List Rect),
       rectChanges d (trollTrace env d ps k rs) ≤ 1) :=
  ⟨maybe_troll_latched,
   fun d r ps env k h => maybe_troll_sets_flag d r ps env k h,
   fun env d ps k rs => rectChanges_trollTrace_le_one env rs d ps k⟩

/-- Witness for C4: the desktop level door, a player rectangle qualifying
for the troll, a latched door left unchanged, and a two-frame trace with at
most one swap. -/
theorem C4_witness :
    ((Door.make (1140, 380) (160, 500)).maybe_troll ⟨1120, 380, 32, 44⟩ []
        ⟨fun _ => 0, fun _ => 0⟩ 0).1.trolled_once = true ∧
    ({ Door.make (1140, 380) (160, 500) with trolled_once := true } : Door).maybe_troll
        ⟨1120, 380, 32, 44⟩ [] ⟨fun _ => 0, fun _ => 0⟩ 0
      = ({ Door.make (1140, 380) (160, 500) with trolled_once := true }, [], 0) ∧
    rectChanges (Door.make (1140, 380) (160, 500))
        (trollTrace ⟨fun _ => 0, fun _ => 0⟩ (Door.make (1140, 380) (160, 500)) [] 0
          [⟨1120, 380, 32, 44⟩, ⟨1120, 380, 32, 44⟩]) ≤ 1 := by
  refine ⟨?_, ?_, ?_⟩
  · exact (C4_door_troll_once.2.1 _ _ _ _ _ rfl).1.mpr (by decide)
  · exact C4_door_troll_once.1 _ _ _ _ _ rfl
  · exact C4_door_troll_once.2.2 _ _ _ _ _

/-- One frame of falling-stone logic as desktop `Game.update` performs it:
`trigger_check` with the player's center x, then `update`. -/
def stoneStep (s : FallingStone) (px : ℤ) (dt : ℚ) (platforms : List Rect)
    (ps : List DParticle) (env : Env) (k : ℕ) : FallingStone × List DParticle × ℕ :=
  (s.trigger_check px).update dt platforms ps env k

/-- Iterated `stoneStep` over per-frame inputs (player x, dt). -/
def stoneTrace (env : Env) (platforms : List Rect) :
    FallingStone → List DParticle → ℕ → List (ℤ × ℚ) → FallingStone
  | s, _, _, [] => s
  | s, ps, k, pd :: rest =>
      let r := stoneStep s pd.1 pd.2 platforms ps env k
      stoneTrace env platforms r.1 r.2.1 r.2.2 rest

theorem trigger_check_dropped (s : FallingStone) (px : ℤ) :
    (s.trigger_check px).dropped = s.dropped := by
  unfold FallingStone.trigger_check; split <;> rfl

theorem trigger_check_timer (s : FallingStone) (px : ℤ) :
    (s.trigger_check px).warning_timer = s.warning_timer := by
  unfold FallingStone.trigger_check; split <;> rfl

theorem update_dropped (s : FallingStone) (dt : ℚ) (platforms : List Rect)
    (ps : List DParticle) (env : Env) (k : ℕ) :
    (s.update dt platforms ps env k).1.dropped
      = (s.dropped || (s.warning && decide (s.warning_timer - dt ≤ 0))) := by
  unfold FallingStone.update
  by_cases hw : s.warning = true <;> by_cases hd : s.dropped = true <;>
    by_cases ht : s.warning_timer - dt ≤ 0 <;>
      simp [hw, hd, ht] <;> (try ((repeat' split) <;> simp [hd]))

theorem stoneStep_out_of_range (s : FallingStone) (px : ℤ) (dt : ℚ)
    (platforms : List Rect) (ps : List DParticle) (env : Env) (k : ℕ)
    (h1 : s.dropped = false) (h2 : s.warning = false)
    (hout : ¬(s.trigger_range.1 ≤ px ∧ px ≤ s.trigger_range.2)) :
    stoneStep s px dt platforms ps env k = (s, ps, k) := by
  unfold stoneStep
  have htc : s.trigger_check px = s := by
    unfold FallingStone.trigger_check
    simp [h1, h2, hout]
  rw [htc]
  unfold FallingStone.update
  simp [h1, h2]

theorem stoneTrace_safety (env : Env) (platforms : List Rect) (inputs : List (ℤ × ℚ)) :
    ∀ (s : FallingStone) (ps : List DParticle) (k : ℕ),
      s.dropped = false → s.warning = false →
      (stoneTrace env platforms s ps k inputs).dropped = true →
      ∃ pd ∈ inputs, s.trigger_range.1 ≤ pd.1 ∧ pd.1 ≤ s.trigger_range.2 := by
  induction inputs with
  | nil => intro s ps k h1 _ hdrop; rw [stoneTrace] at hdrop; rw [h1] at hdrop; cases hdrop
  | cons pd rest ih =>
      intro s ps k h1 h2 hdrop
      by_cases hin : s.trigger_range.1 ≤ pd.1 ∧ pd.1 ≤ s.trigger_range.2
      · exact ⟨pd, List.mem_cons_self pd rest, hin⟩
      · rw [stoneTrace, stoneStep_out_of_range s pd.1 pd.2 platforms ps env k h1 h2 hin] at hdrop
        obtain ⟨q, hq, hqin⟩ := ih s ps k h1 h2 hdrop
        exact ⟨q, List.mem_cons_of_mem pd hq, hqin⟩

/-- Claim C3: a `FallingStone` starts with its warning timer at the
configured warning duration and not dropped; one frame sets `dropped`
exactly when the (possibly just-triggered) warning is on and the timer,
decremented by dt, has reached ≤ 0; and over any run from the initial state,
`dropped` can only become true if the player's x was inside the trigger
range on some earlier-or-equal frame. -/
theorem C3_falling_stone_drop :
    (∀ (x top_y : ℤ) (tr : ℤ × ℤ) (wt : ℚ),
       (FallingStone.make x top_y tr wt).warning_timer = wt ∧
       (FallingStone.make x top_y tr wt).dropped = false ∧
       (FallingStone.make x top_y tr wt).warning = false) ∧
    (∀ (s : FallingStone) (px : ℤ) (dt : ℚ) (platforms : List Rect)
       (ps : List DParticle) (env : Env) (k : ℕ),
       (stoneStep s px dt platforms ps env k).1.dropped
         = (s.dropped || ((s.trigger_check px).warning && decide (s.warning_timer - dt ≤ 0)))) ∧
    (∀ (env : Env) (platforms : List Rect) (inputs : List (ℤ × ℚ))
       (s : FallingStone) (ps : List DParticle) (k : ℕ),
       s.dropped = false → s.warning = false →
       (stoneTrace env platforms s ps k inputs).dropped = true →
       ∃ pd ∈ inputs, s.trigger_range.1 ≤ pd.1 ∧ pd.1 ≤ s.trigger_range.2) := by
  refine ⟨fun x y tr wt => ⟨rfl, rfl, rfl⟩, ?_, ?_⟩
  · intro s px dt platforms ps env k
    unfold stoneStep
    rw [update_dropped, trigger_check_dropped, trigger_check_timer]
  · intro env platforms inputs s ps k h1 h2 hdrop
    exact stoneTrace_safety env platforms inputs s ps k h1 h2 hdrop

/-- Witness for C3: the first stone of the desktop level, with the player
standing at x = 480 for one long frame, drops; the theorem recovers the
frame on which the player was inside the trigger band. -/
theorem C3_witness :
    ∃ pd ∈ [((480 : ℤ), (2 : ℚ))],
      (FallingStone.make 480 50 (420, 540) 1.5).trigger_range.1 ≤ pd.1 ∧
      pd.1 ≤ (FallingStone.make 480 50 (420, 540) 1.5).trigger_range.2 :=
  C3_falling_stone_drop.2.2 ⟨fun _ => 0, fun _ => 0⟩ [] [((480 : ℤ), (2 : ℚ))]
    (FallingStone.make 480 50 (420, 540) 1.5) [] 0 rfl rfl
    (by norm_num [stoneTrace, stoneStep, FallingStone.trigger_check, FallingStone.update,
          FallingStone.make, Env.uniform, pyTrunc, GRAVITY, TERMINAL_VELOCITY])

/-- Operations a caller can perform on the web particle system. -/
inductive POp where
  | explosion (pos : ℚ × ℚ) (count : ℕ) (color : ℕ × ℕ × ℕ) (vel_range : ℚ × ℚ)
  | dust (pos : ℚ × ℚ) (count : ℕ)
  | step (dt : ℚ)

/-- Apply one particle-system operation (web variant). -/
def applyPOp (env : Env) (sk : Web.ParticleSystem × ℕ) : POp → Web.ParticleSystem × ℕ
  | POp.explosion pos c col vr => Web.ParticleSystem.add_explosion sk.1 pos c col vr env sk.2
  | POp.dust pos c => Web.ParticleSystem.add_dust sk.1 pos c env sk.2
  | POp.step dt => (Web.ParticleSystem.update sk.1 dt, sk.2)

/-- Run a sequence of particle-system operations from a fresh web system. -/
def runPOps (env : Env) (ops : List POp) : Web.ParticleSystem × ℕ :=
  ops.foldl (applyPOp env) (Web.ParticleSystem.make, 0)

/-- The web particle-pool invariant: cap 100, never exceeded. -/
def PInv (ps : Web.ParticleSystem) : Prop :=
  ps.max_particles = 100 ∧ ps.particles.length ≤ 100

theorem add_explosion_web_inv (ps : Web.ParticleSystem) (pos : ℚ × ℚ) (c : ℕ)
    (col : ℕ × ℕ × ℕ) (vr : ℚ × ℚ) (env : Env) (k : ℕ) (h : PInv ps) :
    PInv (Web.ParticleSystem.add_explosion ps pos c col vr env k).1 := by
  obtain ⟨hmax, hlen⟩ := h
  simp only [Web.ParticleSystem.add_explosion, PInv]
  split
  · rename_i hover
    refine ⟨hmax, ?_⟩
    simp only [List.length_append, List.length_map, List.length_range, List.length_drop, hmax]
    rw [hmax] at hover
    omega
  · rename_i hover
    refine ⟨hmax, ?_⟩
    simp only [List.length_append, List.length_map, List.length_range]
    rw [hmax] at hover
    omega

theorem add_dust_web_inv (ps : Web.ParticleSystem) (pos : ℚ × ℚ) (c : ℕ)
    (env : Env) (k : ℕ) (h : PInv ps) :
    PInv (Web.ParticleSystem.add_dust ps pos c env k).1 := by
  obtain ⟨hmax, hlen⟩ := h
  simp only [Web.ParticleSystem.add_dust, PInv]
  split
  · exact ⟨hmax, hlen⟩
  · rename_i hover
    refine ⟨hmax, ?_⟩
    simp only [List.length_append, List.length_map, List.length_range]
    rw [hmax] at hover
    omega

theorem update_web_inv (ps : Web.ParticleSystem) (dt : ℚ) (h : PInv ps) :
    PInv (Web.ParticleSystem.update ps dt) := by
  obtain ⟨hmax, hlen⟩ := h
  refine ⟨hmax, ?_⟩
  unfold Web.ParticleSystem.update
  calc ((ps.particles.map (Web.ParticleSystem.update_particle dt)).filter
          (fun p => decide (0 < p.life))).length
      ≤ (ps.particles.map (Web.ParticleSystem.update_particle dt)).length :=
        List.length_filter_le _ _
    _ = ps.particles.length := List.length_map _ _
    _ ≤ 100 := hlen

theorem runPOps_inv (env : Env) (ops : List POp) :
    ∀ sk : Web.ParticleSystem × ℕ, PInv sk.1 → PInv (ops.foldl (applyPOp env) sk).1 := by
  induction ops with
  | nil => intro sk h; exact h
  | cons op rest ih =>
      intro sk h
      refine ih _ ?_
      cases op with
      | explosion pos c col vr => exact add_explosion_web_inv _ _ _ _ _ _ _ h
      | dust pos c => exact add_dust_web_inv _ _ _ _ _ h
      | step dt => exact update_web_inv _ _ h

/-- Amended claim C9: for every sequence of `add_explosion`, `add_dust` and
`update` calls on the web variant's `ParticleSystem`, the live-particle count
never exceeds the cap of 100; an explosion that would exceed the cap evicts
the oldest particles and lands exactly at the cap, and a dust call that would
exceed it is skipped entirely.  (The desktop variant's pool is uncapped; see
the counterexample.) -/
theorem C9_particle_cap :
    (∀ (env : Env) (ops : List POp), (runPOps env ops).1.particles.length ≤ 100) ∧
    (∀ (ps : Web.ParticleSystem) (pos : ℚ × ℚ) (c : ℕ) (col : ℕ × ℕ × ℕ)
       (vr : ℚ × ℚ) (env : Env) (k : ℕ),
       ps.max_particles = 100 → 100 < ps.particles.length + min c 10 →
       (Web.ParticleSystem.add_explosion ps pos c col vr env k).1.particles.length = 100) ∧
    (∀ (ps : Web.ParticleSystem) (pos : ℚ × ℚ) (c : ℕ) (env : Env) (k : ℕ),
       ps.max_particles < ps.particles.length + c →
       Web.ParticleSystem.add_dust ps pos c env k = (ps, k)) := by
  refine ⟨?_, ?_, ?_⟩
  · intro env ops
    exact (runPOps_inv env ops (Web.ParticleSystem.make, 0) ⟨rfl, by simp [Web.ParticleSystem.make]⟩).2
  · intro ps pos c col vr env k hmax hover
    simp only [Web.ParticleSystem.add_explosion]
    rw [if_pos (by rw [hmax]; omega)]
    simp only [List.length_append, List.length_map, List.length_range, List.length_drop, hmax]
    omega
  · intro ps pos c env k hover
    simp only [Web.ParticleSystem.add_dust]
    rw [if_pos hover]

/-- Witness for C9: a full pool (100 particles) hit by an oversized explosion
lands exactly at the cap, and an overflowing dust call is skipped. -/
theorem C9_witness :
    (Web.ParticleSystem.add_explosion
        ⟨List.replicate 100 ⟨(0, 0), (0, 0), 1, 1, COLOR_DUST, 1⟩, 100⟩
        (0, 0) 20 COLOR_IMPACT (-5, 5) ⟨fun _ => 0, fun _ => 0⟩ 0).1.particles.length = 100 ∧
    Web.ParticleSystem.add_dust
        ⟨List.replicate 100 ⟨(0, 0), (0, 0), 1, 1, COLOR_DUST, 1⟩, 100⟩
        (0, 0) 3 ⟨fun _ => 0, fun _ => 0⟩ 0
      = (⟨List.replicate 100 ⟨(0, 0), (0, 0), 1, 1, COLOR_DUST, 1⟩, 100⟩, 0) :=
  ⟨C9_particle_cap.2.1 _ (0, 0) 20 COLOR_IMPACT (-5, 5) _ 0 rfl (by simp),
   C9_particle_cap.2.2 _ (0, 0) 3 _ 0 (by simp)⟩

/-- Counterexample for C9 as stated over both variants: the desktop
`ParticleSystem` has no cap; six default explosions of 20 particles each
leave 120 live particles in the pool, exceeding 100. -/
theorem C9_counterexample :
    100 <
      (ParticleSystem.add_explosion
        (ParticleSystem.add_explosion
          (ParticleSystem.add_explosion
            (ParticleSystem.add_explosion
              (ParticleSystem.add_explosion
                (ParticleSystem.add_explosion [] (0, 0) 20 COLOR_IMPACT (-5, 5)
                  ⟨fun _ => 0, fun _ => 0⟩ 0).1
                (0, 0) 20 COLOR_IMPACT (-5, 5) ⟨fun _ => 0, fun _ => 0⟩ 0).1
              (0, 0) 20 COLOR_IMPACT (-5, 5) ⟨fun _ => 0, fun _ => 0⟩ 0).1
            (0, 0) 20 COLOR_IMPACT (-5, 5) ⟨fun _ => 0, fun _ => 0⟩ 0).1
          (0, 0) 20 COLOR_IMPACT (-5, 5) ⟨fun _ => 0, fun _ => 0⟩ 0).1
        (0, 0) 20 COLOR_IMPACT (-5, 5) ⟨fun _ => 0, fun _ => 0⟩ 0).1.length := by
  simp [ParticleSystem.add_explosion]

/-- Amended claim C8: membership in the per-frame platform collision list.
In the web variant the list holds exactly the static platforms, the active
not-yet-triggered fake platforms, and the magic wall while alive, each
restricted to centers within 800 px of the player's center x; the desktop
variant applies no distance filter and has no fake platforms, so its list is
exactly the static platforms plus the wall while alive. -/
theorem C8_platform_list :
    (∀ (statics : List Rect) (fakes : List Web.FakePlatform) (mw : MagicWall)
       (px : ℤ) (r : Rect),
       r ∈ Web.platformsForCollision statics fakes mw px ↔
         ((r ∈ statics ∧ |r.centerx - px| < 800) ∨
          (∃ f ∈ fakes, f.active = true ∧ f.triggered = false ∧
             |f.rect.centerx - px| < 800 ∧ r = f.rect) ∨
          (mw.alive = true ∧ |mw.rect.centerx - px| < 800 ∧ r = mw.rect))) ∧
    (∀ (g : Game) (r : Rect),
       r ∈ g.platformsForCollision ↔
         (r ∈ g.platforms ∨ (g.magic_wall.alive = true ∧ r = g.magic_wall.rect))) := by
  constructor
  · intro statics fakes mw px r
    simp only [Web.platformsForCollision, List.mem_append, List.mem_filter, List.mem_map,
      decide_eq_true_eq, Bool.and_eq_true, Bool.not_eq_true']
    constructor
    · rintro ((⟨hs, hd⟩ | ⟨f, ⟨hf, ⟨ha, ht⟩, hd⟩, hr⟩) | hw)
      · exact Or.inl ⟨hs, hd⟩
      · exact Or.inr (Or.inl ⟨f, hf, ha, ht, hd, hr.symm⟩)
      · split at hw
        · rename_i hc
          simp at hw
          subst hw
          exact Or.inr (Or.inr ⟨hc.1, hc.2, rfl⟩)
        · simp at hw
    · rintro (⟨hs, hd⟩ | ⟨f, hf, ha, ht, hd, hr⟩ | ⟨ha, hd, hr⟩)
      · exact Or.inl (Or.inl ⟨hs, hd⟩)
      · exact Or.inl (Or.inr ⟨f, ⟨hf, ⟨ha, ht⟩, hd⟩, hr.symm⟩)
      · refine Or.inr ?_
        rw [if_pos ⟨ha, hd⟩]
        simp [hr]
  · intro g r
    by_cases ha : g.magic_wall.alive = true <;>
      simp [Game.platformsForCollision, ha, eq_comm]

/-- Counterexample for C8 as stated: in the web variant, with the player at
its spawn (center x = 75), the static "final approach" platform at x = 1100
is omitted from the per-frame collision list because it is farther than
800 px from the player. -/
theorem C8_counterexample :
    Rect.mk 1100 (HEIGHT - 280) 140 20 ∈ Web.setup_platforms ∧
    (Web.Player.make 60 (HEIGHT - 100)).rect.centerx = 75 ∧
    Rect.mk 1100 (HEIGHT - 280) 140 20 ∉
      Web.platformsForCollision Web.setup_platforms Web.setup_fake_platforms
        Web.setup_magic_wall 75 := by
  refine ⟨by decide, by decide, by decide⟩

theorem Rect.bottom_setBottom (r : Rect) (v : ℤ) : (r.setBottom v).bottom = v := by
  simp [Rect.setBottom, Rect.bottom]

theorem vstep_not_collide (env : Env) (acc : Web.Player.VAcc) (p : Rect)
    (h : acc.rect.collide p = false) : Web.Player.vstep env acc p = acc := by
  simp [Web.Player.vstep, h]

theorem vstep_vy_zero (env : Env) (acc : Web.Player.VAcc) (p : Rect)
    (h : acc.vy = 0) : Web.Player.vstep env acc p = acc := by
  unfold Web.Player.vstep
  split
  · rw [h]; norm_num
  · rfl

theorem foldl_vstep_vy_zero (env : Env) (l : List Rect) (acc : Web.Player.VAcc)
    (h : acc.vy = 0) : l.foldl (Web.Player.vstep env) acc = acc := by
  induction l with
  | nil => rfl
  | cons p l ih => rw [List.foldl_cons, vstep_vy_zero env acc p h]; exact ih

theorem vstep_land (env : Env) (acc : Web.Player.VAcc) (p : Rect)
    (hc : acc.rect.collide p = true) (hvy : 0 < acc.vy) (hjb : acc.jump_buffer ≤ 0) :
    Web.Player.vstep env acc p =
      { acc with rect := acc.rect.setBottom p.top, vy := 0, on_ground := true,
                 squash := 1.3, stretch := 0.7 } := by
  have hjb' : ¬(0 < acc.jump_buffer) := not_lt.mpr hjb
  simp [Web.Player.vstep, hc, hvy, hjb']
  norm_num

theorem vstep_land_buffered (env : Env) (acc : Web.Player.VAcc) (p : Rect)
    (hc : acc.rect.collide p = true) (hvy : 0 < acc.vy) (hjb : 0 < acc.jump_buffer) :
    Web.Player.vstep env acc p =
      { acc with rect := acc.rect.setBottom p.top, vy := JUMP_VELOCITY,
                 on_ground := false, jump_buffer := 0, can_double_jump := true,
                 has_double_jumped := false, squash := 0.7, stretch := 1.3 } := by
  simp [Web.Player.vstep, hc, hvy, hjb]

theorem foldl_vstep_zero_or_jump (env : Env) (l : List Rect) :
    ∀ acc : Web.Player.VAcc, acc.vy = 0 ∨ acc.vy = JUMP_VELOCITY →
      (l.foldl (Web.Player.vstep env) acc).vy = 0 ∨
      (l.foldl (Web.Player.vstep env) acc).vy = JUMP_VELOCITY := by
  induction l with
  | nil => intro acc h; exact h
  | cons p l ih =>
      intro acc h
      rw [List.foldl_cons]
      rcases h with h0 | hj
      · rw [vstep_vy_zero env acc p h0]; exact ih acc (Or.inl h0)
      · by_cases hc : acc.rect.collide p = true
        · have hneg : acc.vy < 0 := by rw [hj]; norm_num [JUMP_VELOCITY]
          have hstep : Web.Player.vstep env acc p =
              { acc with rect := acc.rect.setTop p.bottom, vy := 0 } := by
            have hnpos : ¬(0 < acc.vy) := not_lt.mpr (le_of_lt hneg)
            simp [Web.Player.vstep, hc, hnpos, hneg]
          rw [hstep]
          exact ih _ (Or.inl rfl)
        · rw [vstep_not_collide env acc p (by simpa using hc)]
          exact ih acc (Or.inr hj)

/-- Claim C2: the web vertical collision resolution loop, entered while
moving downward with at least one colliding platform, snaps the player's
bottom to the top of the (first) colliding platform and zeroes the vertical
velocity, except when a buffered jump fires on landing, in which case the
velocity becomes `JUMP_VELOCITY` instead (or is zeroed by a subsequent
ceiling hit). -/
theorem C2_vertical_landing (env : Env) (platforms : List Rect) (acc0 : Web.Player.VAcc)
    (hvy : 0 < acc0.vy)
    (hcol : ∃ r ∈ platforms, acc0.rect.collide r = true) :
    ((platforms.foldl (Web.Player.vstep env) acc0).vy = 0 ∨
       (0 < acc0.jump_buffer ∧
        (platforms.foldl (Web.Player.vstep env) acc0).vy = JUMP_VELOCITY)) ∧
    (acc0.jump_buffer ≤ 0 →
       ∃ r ∈ platforms, acc0.rect.collide r = true ∧
         (platforms.foldl (Web.Player.vstep env) acc0).rect.bottom = r.top ∧
         (platforms.foldl (Web.Player.vstep env) acc0).vy = 0 ∧
         (platforms.foldl (Web.Player.vstep env) acc0).on_ground = true) := by
  induction platforms with
  | nil => simp at hcol
  | cons p l ih =>
      by_cases hc : acc0.rect.collide p = true
      · by_cases hjb : 0 < acc0.jump_buffer
        · constructor
          · rw [List.foldl_cons, vstep_land_buffered env acc0 p hc hvy hjb]
            rcases foldl_vstep_zero_or_jump env l
                { acc0 with rect := acc0.rect.setBottom p.top, vy := JUMP_VELOCITY,
                            on_ground := false, jump_buffer := 0, can_double_jump := true,
                            has_double_jumped := false, squash := 0.7, stretch := 1.3 }
                (Or.inr rfl) with h0 | hj
            · exact Or.inl h0
            · exact Or.inr ⟨hjb, hj⟩
          · intro hle; exact absurd hjb (not_lt.mpr hle)
        · have hle : acc0.jump_buffer ≤ 0 := not_lt.mp hjb
          rw [List.foldl_cons, vstep_land env acc0 p hc hvy hle,
            foldl_vstep_vy_zero env l _ rfl]
          refine ⟨Or.inl rfl, fun _ => ⟨p, List.mem_cons_self p l, hc, ?_, rfl, rfl⟩⟩
          exact Rect.bottom_setBottom acc0.rect p.top
      · have hc' : acc0.rect.collide p = false := by simpa using hc
        have hcol' : ∃ r ∈ l, acc0.rect.collide r = true := by
          rcases hcol with ⟨r, hr, hrc⟩
          rcases List.mem_cons.mp hr with rfl | hrl
          · exact absurd hrc (by simp [hc'])
          · exact ⟨r, hrl, hrc⟩
        obtain ⟨h1, h2⟩ := ih hcol'
        rw [List.foldl_cons, vstep_not_collide env acc0 p hc'] at *
        refine ⟨h1, fun hle => ?_⟩
        obtain ⟨r, hr, hrc, hres⟩ := h2 hle
        exact ⟨r, List.mem_cons_of_mem p hr, hrc, hres⟩

/-- Witness for C2: a player rectangle falling at vy = 5 into a single
platform, with no buffered jump: the loop lands it on the platform top with
zero velocity, grounded. -/
theorem C2_witness :
    ∃ r ∈ [Rect.mk 0 120 100 20],
      (Rect.mk 0 96 30 50).collide r = true ∧
      (([Rect.mk 0 120 100 20]).foldl (Web.Player.vstep ⟨fun _ => 0, fun _ => 0⟩)
          ⟨⟨0, 96, 30, 50⟩, 5, false, 0, true, false, 1, 1, Web.ParticleSystem.make, 0⟩).rect.bottom
        = r.top ∧
      (([Rect.mk 0 120 100 20]).foldl (Web.Player.vstep ⟨fun _ => 0, fun _ => 0⟩)
          ⟨⟨0, 96, 30, 50⟩, 5, false, 0, true, false, 1, 1, Web.ParticleSystem.make, 0⟩).vy = 0 ∧
      (([Rect.mk 0 120 100 20]).foldl (Web.Player.vstep ⟨fun _ => 0, fun _ => 0⟩)
          ⟨⟨0, 96, 30, 50⟩, 5, false, 0, true, false, 1, 1, Web.ParticleSystem.make, 0⟩).on_ground
        = true :=
  (C2_vertical_landing ⟨fun _ => 0, fun _ => 0⟩ [Rect.mk 0 120 100 20]
      ⟨⟨0, 96, 30, 50⟩, 5, false, 0, true, false, 1, 1, Web.ParticleSystem.make, 0⟩
      (by norm_num) ⟨Rect.mk 0 120 100 20, by simp, by decide⟩).2 (by norm_num)

theorem wallHitBlock_fields (g : Game) (env : Env) (k : ℕ) :
    (Game.wallHitBlock g env k).1.spikes = g.spikes ∧
    (Game.wallHitBlock g env k).1.player = g.player ∧
    (Game.wallHitBlock g env k).1.attempts = g.attempts ∧
    (Game.wallHitBlock g env k).1.state = g.state ∧
    (Game.wallHitBlock g env k).1.falling_stones = g.falling_stones ∧
    (Game.wallHitBlock g env k).1.door = g.door ∧
    (Game.wallHitBlock g env k).1.win_trigger = g.win_trigger := by
  unfold Game.wallHitBlock
  by_cases h1 : g.magic_wall.alive = true ∧
      g.player.rect.collide (g.magic_wall.rect.inflate 5 5) = true
  · by_cases h2 : g.magic_wall.hit.2 = true <;> simp [h1, h2]
  · simp [h1]

theorem handle_collisions_not_playing (g : Game) (now : ℚ) (env : Env) (k : ℕ)
    (h : g.state ≠ GameState.PLAYING) : g.handle_collisions now env k = (g, k) := by
  unfold Game.handle_collisions
  rw [if_pos h]

theorem handle_collisions_spike_kill (g : Game) (now : ℚ) (env : Env) (k : ℕ)
    (hP : g.state = GameState.PLAYING)
    (hs : ∃ s ∈ g.spikes, spikeHits g.player.rect s = true) :
    (g.handle_collisions now env k).1.state = GameState.DEAD ∧
    (g.handle_collisions now env k).1.attempts = g.attempts + 1 := by
  obtain ⟨hsp, hpl, hat, hst, -⟩ := wallHitBlock_fields g env k
  have hfind : ((Game.wallHitBlock g env k).1.spikes.find?
      (spikeHits (Game.wallHitBlock g env k).1.player.rect)).isSome := by
    rw [hsp, hpl, List.find?_isSome]
    exact hs
  obtain ⟨s', hfind'⟩ := Option.isSome_iff_exists.mp hfind
  unfold Game.handle_collisions
  rw [if_neg (by simp [hP])]
  simp only [hfind', Game.kill_player]
  simp [hat]

theorem update_dead_persists (g : Game) (keys : Keys) (dt now : ℚ) (env : Env) (k : ℕ)
    (hD : g.state = GameState.DEAD) (hr : keys.k_r = false) :
    (g.update keys dt now env k).1.state = GameState.DEAD := by
  by_cases he : keys.k_escape = true
  · simp [Game.update, hr, he, hD]
  · simp only [Bool.not_eq_true] at he
    simp [Game.update, hr, he, hD, handle_collisions_not_playing]

/-- Claim C6: in state PLAYING, a frame on which any of the player's five
sampled points lies inside an active spike's danger triangle sends
`handle_collisions` to DEAD within that same call and increments the attempt
counter by exactly one; and from state DEAD, `Game.update` without the reset
key leaves the state DEAD on every subsequent frame. -/
theorem C6_spike_death :
    (∀ (g : Game) (now : ℚ) (env : Env) (k : ℕ),
       g.state = GameState.PLAYING →
       (∃ s ∈ g.spikes, spikeHits g.player.rect s = true) →
       (g.handle_collisions now env k).1.state = GameState.DEAD ∧
       (g.handle_collisions now env k).1.attempts = g.attempts + 1) ∧
    (∀ (g : Game) (keys : Keys) (dt now : ℚ) (env : Env) (k : ℕ),
       g.state = GameState.DEAD → keys.k_r = false →
       (g.update keys dt now env k).1.state = GameState.DEAD) :=
  ⟨handle_collisions_spike_kill, update_dead_persists⟩

/-- Witness for C6: a session whose player rectangle sits on an active spike
dies on that frame with the attempt counter stepping from 0 to 1, and a dead
session without reset input stays dead through a frame. -/
theorem C6_witness :
    (({ Game.make 0 with
          spikes := [Spike.make 0 0 32 26 false 0 MovePattern.none],
          player := Player.make 0 0 } : Game).handle_collisions 0
        ⟨fun _ => 0, fun _ => 0⟩ 0).1.state = GameState.DEAD ∧
    (({ Game.make 0 with
          spikes := [Spike.make 0 0 32 26 false 0 MovePattern.none],
          player := Player.make 0 0 } : Game).handle_collisions 0
        ⟨fun _ => 0, fun _ => 0⟩ 0).1.attempts
      = ({ Game.make 0 with
             spikes := [Spike.make 0 0 32 26 false 0 MovePattern.none],
             player := Player.make 0 0 } : Game).attempts + 1 ∧
    (({ Game.make 0 with state := GameState.DEAD } : Game).update
        ⟨false, false, false, false, false, false, false, false, false⟩ (1/60) 0
        ⟨fun _ => 0, fun _ => 0⟩ 0).1.state = GameState.DEAD := by
  have h1 := C6_spike_death.1
    { Game.make 0 with
        spikes := [Spike.make 0 0 32 26 false 0 MovePattern.none],
        player := Player.make 0 0 } 0 ⟨fun _ => 0, fun _ => 0⟩ 0 rfl
    ⟨Spike.make 0 0 32 26 false 0 MovePattern.none, by simp,
     by norm_num [spikeHits, Spike.get_danger_zone, Spike.make,
           point_in_triangle_collision, samplePoints, point_in_triangle, ptQ,
           Rect.left, Rect.right, Rect.top, Rect.bottom, Rect.centerx, Rect.centery,
           Player.make]⟩
  have h2 := C6_spike_death.2 { Game.make 0 with state := GameState.DEAD }
    ⟨false, false, false, false, false, false, false, false, false⟩ (1/60) 0
    ⟨fun _ => 0, fun _ => 0⟩ 0 rfl rfl
  exact ⟨h1.1, h1.2, h2⟩
